import Mathlib

/-!
Verification development for the chicken-math-pdf repository: a shallow
embedding of `chicken_math_pdf_generator.py` (the report Composer) and
`api_server.py` (the Flask HTTP front end), with theorems about the
rendered report content and the two generation routes.
-/

namespace ChickenMath

/-- A character is one of the decimal digits `'0'`..`'9'`. -/
def isDigitCh (c : Char) : Bool := '0' ≤ c && c ≤ '9'

/-- Decimal digit extraction, least significant first, with enough fuel
(`fuel ≥ n` always suffices since `n` shrinks every step). -/
def digitsAux : Nat → Nat → List Char
  | 0, _ => []
  | fuel + 1, n => if n = 0 then [] else Nat.digitChar (n % 10) :: digitsAux fuel (n / 10)

/-- Decimal digits of `n`, least significant first (empty for `0`).
Embeds the digit extraction behind Python's `str`/`format` of an integer. -/
def natDigitsLSD (n : Nat) : List Char := digitsAux n n

/-- Decimal digits of `n`, most significant first; `['0']` for `0`. -/
def natDigits (n : Nat) : List Char :=
  if n = 0 then ['0'] else (natDigitsLSD n).reverse

/-- Embedding of Python `str(n)` for a natural number. -/
def natRepr (n : Nat) : String := String.mk (natDigits n)

/-- Embedding of Python `str(i)` for an `int`. -/
def intRepr (i : Int) : String :=
  if i < 0 then "-" ++ natRepr i.natAbs else natRepr i.natAbs

/-- Comma grouping with fuel (`fuel ≥ l.length` always suffices). -/
def groupAux : Nat → List Char → List Char
  | 0, l => l
  | fuel + 1, l =>
      if l.length ≤ 3 then l
      else l.take 3 ++ ',' :: groupAux fuel (l.drop 3)

/-- Insert a `','` after every three characters of `l` (`l` is a digit list,
least significant digit first).  This is the right-to-left grouping done by
Python's `','` format option. -/
def groupRevChars (l : List Char) : List Char := groupAux l.length l

/-- Embedding of Python `format(n, ',d')` for a natural number: decimal
digits with a thousands separator. -/
def pyCommaNat (n : Nat) : String :=
  String.mk ((groupRevChars (natDigits n).reverse).reverse)

/-- Embedding of Python `f"‹i›:,"` for an `int`: sign, then grouped digits. -/
def pyCommaInt (i : Int) : String :=
  if i < 0 then "-" ++ pyCommaNat i.natAbs else pyCommaNat i.natAbs

/-- Round a rational to the nearest integer, ties to even (the rounding used
by Python's fixed-point float formatting). -/
def roundHalfEven (q : ℚ) : Int :=
  let f : Int := ⌊q⌋
  let r : ℚ := q - (f : ℚ)
  if r < 1/2 then f
  else if 1/2 < r then f + 1
  else if f % 2 = 0 then f else f + 1

/-- The two fractional digits of a cents value `f < 100` (Python's `.2f`
zero-padded fractional part). -/
def pad2 (f : Nat) : String :=
  String.mk [Nat.digitChar (f / 10), Nat.digitChar (f % 10)]

/-- Embedding of Python `f"‹x›:,.2f"`: sign, comma-grouped integer part,
a point and exactly two fractional digits. -/
def pyMoney (q : ℚ) : String :=
  let c : Int := roundHalfEven (100 * q)
  (if c < 0 then "-" else "") ++ pyCommaNat (c.natAbs / 100) ++ "." ++ pad2 (c.natAbs % 100)

/-- A currency cell of the economics table: `f"${value:,.2f}"` in the source
(`generate_chicken_math_pdf`, the `economic_data` rows). -/
def currencyCell (q : ℚ) : String := "$" ++ pyMoney q

/-- The egg-count cell of the economics table: `f"{value:,} eggs"`. -/
def eggsCell (i : Int) : String := pyCommaInt i ++ " eggs"

/-- Checker (independent of the producers above): a reversed character list
is a comma-grouped digit string read right to left — blocks of exactly three
digits each followed by `','`, ending in one to three digits. -/
def groupedRev : List Char → Bool
  | [] => false
  | [a] => isDigitCh a
  | [a, b] => isDigitCh a && isDigitCh b
  | [a, b, c] => isDigitCh a && isDigitCh b && isDigitCh c
  | a :: b :: c :: d :: rest =>
      isDigitCh a && isDigitCh b && isDigitCh c && (d == ',') && groupedRev rest

/-- Checker: a string is an unsigned comma-grouped decimal numeral. -/
def commaGroupedB (s : String) : Bool := groupedRev s.data.reverse

/-- Checker: a character list is a comma-grouped numeral with an optional
leading minus sign. -/
def signedGroupedB (l : List Char) : Bool :=
  groupedRev l.reverse ||
    (match l with
     | c :: rest => c == '-' && groupedRev rest.reverse
     | [] => false)

/-- Checker: a string is `'$'`, an optionally signed comma-grouped integer
part, `'.'`, then exactly two digits (and nothing else). -/
def currencyShapeB (s : String) : Bool :=
  match s.data with
  | c :: rest =>
      (c == '$') &&
        (match rest.reverse with
         | d2 :: d1 :: p :: revInt =>
             isDigitCh d1 && isDigitCh d2 && (p == '.') && signedGroupedB revInt.reverse
         | _ => false)
  | [] => false

/-- Checker: a string is an optionally signed comma-grouped numeral (no
decimal point possible) followed by the literal suffix `" eggs"`. -/
def eggsShapeB (s : String) : Bool :=
  match s.data.reverse with
  | s1 :: s2 :: s3 :: s4 :: s5 :: revNum =>
      (s1 == 's') && (s2 == 'g') && (s3 == 'g') && (s4 == 'e') && (s5 == ' ') &&
        signedGroupedB revNum.reverse
  | _ => false

/-- The Report Request: the JSON object both generation routes accept.
A field holds `none` when the key is absent from the submitted mapping
(`data.get(key, default)` in the source then yields the default). -/
structure ReportData where
  name : Option String
  current_flock : Option Int
  real_flock : Option Int
  yearly_eggs : Option Int
  egg_revenue : Option ℚ
  feed_cost : Option ℚ
  net_profit : Option ℚ
  funny_quote : Option String
  recommended_purchase : Option String
  meme_image_url : Option String

/-- A value of a `TableStyle` command (color, font, size or grid spec). -/
inductive StyleVal where
  | color (c : String)
  | font (f : String)
  | num (n : ℚ)
  | align (a : String)
  | grid (w : ℚ) (c : String)

/-- One `TableStyle` command: name, start cell, end cell, value. -/
structure StyleCmd where
  cmd : String
  a : Int × Int
  b : Int × Int
  v : StyleVal

/-- A flowable appended to the `elements` list of the Composer. -/
inductive Element where
  | paragraph (text : String) (style : String)
  | spacer (w h : ℚ)
  | table (rows : List (List String)) (colWidths : List ℚ) (style : List StyleCmd)
  | pageBreak

/-- One inch in points (`reportlab.lib.units.inch`). -/
def inch : ℚ := 72

/-- The findings table rows (`flock_data` in `generate_chicken_math_pdf`). -/
def flock_data (d : ReportData) : List (List String) :=
  [["Category", "Count", "Status"],
   ["Chickens You Admit To Owning", intRepr (d.current_flock.getD 0), "✓"],
   ["Actual Chicken Count (Per Audit)", intRepr (d.real_flock.getD 0), "⚠️"],
   ["Discrepancy", intRepr (d.real_flock.getD 0 - d.current_flock.getD 0), "CRITICAL"]]

/-- The findings table style (`flock_table.setStyle` in the source). -/
def flock_table_style : List StyleCmd :=
  [⟨"BACKGROUND", (0, 0), (-1, 0), .color "#e74c3c"⟩,
   ⟨"TEXTCOLOR", (0, 0), (-1, 0), .color "whitesmoke"⟩,
   ⟨"ALIGN", (0, 0), (-1, -1), .align "CENTER"⟩,
   ⟨"FONTNAME", (0, 0), (-1, 0), .font "Helvetica-Bold"⟩,
   ⟨"FONTSIZE", (0, 0), (-1, 0), .num 12⟩,
   ⟨"BOTTOMPADDING", (0, 0), (-1, 0), .num 12⟩,
   ⟨"BACKGROUND", (0, 1), (-1, -1), .color "beige"⟩,
   ⟨"GRID", (0, 0), (-1, -1), .grid 1 "black"⟩,
   ⟨"FONTNAME", (0, -1), (-1, -1), .font "Helvetica-Bold"⟩,
   ⟨"BACKGROUND", (0, -1), (-1, -1), .color "#f39c12"⟩]

/-- The economics table rows (`economic_data` in the source). -/
def economic_data (d : ReportData) : List (List String) :=
  [["Metric", "Annual Amount"],
   ["Projected Egg Production", eggsCell (d.yearly_eggs.getD 0)],
   ["Egg Revenue Value", currencyCell (d.egg_revenue.getD 0)],
   ["Feed & Bedding Costs", currencyCell (d.feed_cost.getD 0)],
   ["Net Financial Impact", currencyCell (d.net_profit.getD 0)]]

/-- The economics table style; the final row's fill is green `#2ecc71` when
`data.get('net_profit', 0) >= 0` and red `#e74c3c` otherwise. -/
def economic_table_style (d : ReportData) : List StyleCmd :=
  [⟨"BACKGROUND", (0, 0), (-1, 0), .color "#3498db"⟩,
   ⟨"TEXTCOLOR", (0, 0), (-1, 0), .color "whitesmoke"⟩,
   ⟨"ALIGN", (0, 0), (-1, -1), .align "LEFT"⟩,
   ⟨"ALIGN", (1, 1), (1, -1), .align "RIGHT"⟩,
   ⟨"FONTNAME", (0, 0), (-1, 0), .font "Helvetica-Bold"⟩,
   ⟨"FONTSIZE", (0, 0), (-1, 0), .num 12⟩,
   ⟨"BOTTOMPADDING", (0, 0), (-1, 0), .num 12⟩,
   ⟨"BACKGROUND", (0, 1), (-1, -1), .color "lightblue"⟩,
   ⟨"GRID", (0, 0), (-1, -1), .grid 1 "black"⟩,
   ⟨"FONTNAME", (0, -1), (-1, -1), .font "Helvetica-Bold"⟩,
   ⟨"BACKGROUND", (0, -1), (-1, -1),
     .color (if d.net_profit.getD 0 ≥ 0 then "#2ecc71" else "#e74c3c")⟩]

/-- The static warning paragraph of page 1. -/
def warning_text : String :=
  "<b>⚠️ OFFICIAL NOTICE ⚠️</b><br/>This report contains classified information regarding the true size of your chicken flock. The discrepancies found during this audit are NOT your fault. Chicken Math is a scientifically proven phenomenon affecting 99.7% of backyard chicken owners."

/-- The recommendation paragraph of page 2, interpolating
`data.get('recommended_purchase', 'Premium Chicken Care Package')`. -/
def rec_text (d : ReportData) : String :=
  "Based on our comprehensive audit of your chicken operation, the Department of Chicken Mathematics hereby recommends the following action:<br/><br/><b>Recommended Purchase:</b> " ++
    d.recommended_purchase.getD "Premium Chicken Care Package" ++
    "<br/><br/>This recommendation is based on your current flock size, production levels, and the undeniable laws of Chicken Math. Compliance is voluntary but highly encouraged for optimal chicken happiness."

/-- The five static fun-facts bullet lines of page 2. -/
def facts : List String :=
  ["• The Chicken Math Formula has been scientifically proven in over 1 million backyard coops",
   "• 97% of chicken owners underestimate their true flock size by at least 40%",
   "• The primary cause of Chicken Math is 'just one more won't hurt' syndrome",
   "• Most chicken owners experience Chicken Math within 6 months of their first purchase",
   "• There is no known cure for Chicken Math, only acceptance"]

/-- The static certification paragraph of page 2. -/
def cert_text : String :=
  "This report has been prepared in accordance with the Official Chicken Math Standards (OCMS) and the International Backyard Poultry Guidelines (IBPG). All calculations have been verified by certified Chicken Mathematicians.<br/><br/>This document serves as official proof that you are not crazy—you really do have more chickens than you thought you had."

/-- The signature table rows (`sig_data` in the source; `'_' * 40`). -/
def sig_data : List (List String) :=
  [["", ""],
   [String.mk (List.replicate 40 '_'), String.mk (List.replicate 40 '_')],
   ["Chief Chicken Mathematician", "Department Director"],
   ["Dr. Henrietta Clucksworth", "Colonel Sanders III"]]

/-- The signature table style. -/
def sig_table_style : List StyleCmd :=
  [⟨"ALIGN", (0, 0), (-1, -1), .align "CENTER"⟩,
   ⟨"FONTNAME", (0, 2), (-1, -1), .font "Helvetica-Bold"⟩,
   ⟨"FONTSIZE", (0, 2), (-1, 2), .num 10⟩,
   ⟨"FONTSIZE", (0, 3), (-1, 3), .num 9⟩]

/-- The full `elements` flowable list built by `generate_chicken_math_pdf`,
in source order; `today` stands for `datetime.now().strftime('%B %d, %Y')`. -/
def buildElements (d : ReportData) (today : String) : List Element :=
  [.paragraph "🐔 OFFICIAL CHICKEN MATH AUDIT REPORT 🐔" "CustomTitle",
   .spacer 1 (0.2 * inch),
   .paragraph "★ OFFICIAL CERTIFIED ★" "Stamp",
   .spacer 1 (0.3 * inch),
   .paragraph ("<b>Prepared For:</b> " ++ d.name.getD "Chicken Owner") "CustomSubtitle",
   .spacer 1 (0.1 * inch),
   .paragraph ("<b>Audit Date:</b> " ++ today) "CustomBody",
   .spacer 1 (0.3 * inch),
   .paragraph warning_text "CustomBody",
   .spacer 1 (0.3 * inch),
   .paragraph "<b>SECTION 1: FLOCK SIZE FINDINGS</b>" "CustomSubtitle",
   .table (flock_data d) [3 * inch, 1.5 * inch, 1 * inch] flock_table_style,
   .spacer 1 (0.3 * inch),
   .paragraph "<b>SECTION 2: ECONOMIC IMPACT ANALYSIS</b>" "CustomSubtitle",
   .table (economic_data d) [3.5 * inch, 2 * inch] (economic_table_style d),
   .spacer 1 (0.3 * inch),
   .paragraph "<b>OFFICIAL ASSESSMENT:</b>" "CustomSubtitle",
   .paragraph (d.funny_quote.getD "No assessment provided.") "CustomBody",
   .pageBreak,
   .paragraph "OFFICIAL RECOMMENDATIONS & CERTIFICATION" "CustomTitle",
   .spacer 1 (0.3 * inch),
   .paragraph "<b>SECTION 3: DEPARTMENT RECOMMENDATIONS</b>" "CustomSubtitle",
   .paragraph (rec_text d) "CustomBody",
   .spacer 1 (0.3 * inch),
   .paragraph "<b>SECTION 4: OFFICIAL CHICKEN MATH FACTS</b>" "CustomSubtitle"]
  ++ facts.map (fun f => Element.paragraph f "CustomBody")
  ++ [.spacer 1 (0.4 * inch),
   .paragraph "<b>OFFICIAL CERTIFICATION</b>" "CustomSubtitle",
   .paragraph cert_text "CustomBody",
   .spacer 1 (0.4 * inch),
   .table sig_data [2.75 * inch, 2.75 * inch] sig_table_style,
   .spacer 1 (0.3 * inch),
   .paragraph "★ OFFICIAL GOVERNMENT DOCUMENT ★<br/><br/>NOT VALID WITHOUT CHICKEN STAMP" "Stamp"]

/-- The Composer `generate_chicken_math_pdf(data, output_filename)`: builds
the flowable list, writes it to `output_filename` and returns
`output_filename`.  Embedded as the pair (returned filename, document). -/
def generate_chicken_math_pdf (data : ReportData) (output_filename : String)
    (today : String) : String × List Element :=
  (output_filename, buildElements data today)

/-- Missing-key defaulting made explicit: the record with every absent key
replaced by the default `data.get` supplies for it in the source (0 for the
numeric keys, `'Chicken Owner'` for the name, `'No assessment provided.'`
for the quote, `'Premium Chicken Care Package'` for the purchase). -/
def fillDefaults (d : ReportData) : ReportData :=
  ⟨some (d.name.getD "Chicken Owner"),
   some (d.current_flock.getD 0),
   some (d.real_flock.getD 0),
   some (d.yearly_eggs.getD 0),
   some (d.egg_revenue.getD 0),
   some (d.feed_cost.getD 0),
   some (d.net_profit.getD 0),
   some (d.funny_quote.getD "No assessment provided."),
   some (d.recommended_purchase.getD "Premium Chicken Care Package"),
   d.meme_image_url⟩

/-- Look up cell `(i, j)` of a table's row list. -/
def getCell (rows : List (List String)) (i j : Nat) : Option String :=
  (rows.get? i).bind (fun r => r.get? j)

/-- Cell `(i, j)` of a table, or `""` when out of range. -/
def getCellD (rows : List (List String)) (i j : Nat) : String :=
  (getCell rows i j).getD ""

/-- The last `BACKGROUND` command covering exactly cells `lo`..`hi` (later
`TableStyle` commands override earlier ones), and its color. -/
def bgColorAt (cmds : List StyleCmd) (lo hi : Int × Int) : Option String :=
  ((cmds.filter (fun c => decide (c.cmd = "BACKGROUND" ∧ c.a = lo ∧ c.b = hi))).getLast?).bind
    (fun c => match c.v with | .color s => some s | _ => none)

/-- Whether an element is the explicit `PageBreak()`. -/
def isPageBreak : Element → Bool
  | .pageBreak => true
  | _ => false

/-- Split a flowable list into pages at explicit page breaks. -/
def splitAtBreaks : List Element → List (List Element)
  | [] => [[]]
  | e :: rest =>
      if isPageBreak e then [] :: splitAtBreaks rest
      else
        match splitAtBreaks rest with
        | [] => [[e]]
        | g :: gs => (e :: g) :: gs

/-- What `request.json` yields inside a handler: a body that is not JSON
(Flask raises while parsing it), the JSON value `null` (yields Python
`None`), or a JSON object. -/
inductive Body where
  | notJson
  | jsonNull
  | obj (d : ReportData)

/-- The response a generation handler produces. -/
inductive HttpResponse where
  | missingFields400 (missing : List String)
  | pdfAttachment200 (downloadName : String) (doc : List Element)
  | base64_200 (filename : String) (doc : List Element)
  | serverError500 (message : String)

/-- `required_fields` of `api_server.generate_pdf`, in source order. -/
def required_fields : List String :=
  ["name", "current_flock", "real_flock", "yearly_eggs",
   "egg_revenue", "feed_cost", "net_profit", "funny_quote"]

/-- `field in data` for the submitted JSON object. -/
def hasField (d : ReportData) (f : String) : Bool :=
  if f = "name" then d.name.isSome
  else if f = "current_flock" then d.current_flock.isSome
  else if f = "real_flock" then d.real_flock.isSome
  else if f = "yearly_eggs" then d.yearly_eggs.isSome
  else if f = "egg_revenue" then d.egg_revenue.isSome
  else if f = "feed_cost" then d.feed_cost.isSome
  else if f = "net_profit" then d.net_profit.isSome
  else if f = "funny_quote" then d.funny_quote.isSome
  else if f = "recommended_purchase" then d.recommended_purchase.isSome
  else if f = "meme_image_url" then d.meme_image_url.isSome
  else false

/-- `[field for field in required_fields if field not in data]`. -/
def missing_fields (d : ReportData) : List String :=
  required_fields.filter (fun f => !hasField d f)

/-- Python `name.replace(' ', '_')`: every space becomes an underscore. -/
def replaceSpaces (s : String) : String :=
  String.mk (s.data.map (fun c => if c = ' ' then '_' else c))

/-- The suggested download filename both routes build from `data['name']`. -/
def attachmentName (nm : String) : String :=
  "Chicken_Math_Report_" ++ replaceSpaces nm ++ ".pdf"

/-- Handler of `POST /generate-pdf`.  The whole body runs inside
`try/except Exception`, so a parse failure or `None` body becomes a 500;
a validated body is rendered to the temp path `tmp` and streamed back.
The second component lists the files the Composer wrote. -/
def generate_pdf_route (b : Body) (today tmp : String) : HttpResponse × List String :=
  match b with
  | .notJson =>
      (.serverError500 "415 Unsupported Media Type: request content type was not application/json", [])
  | .jsonNull =>
      (.serverError500 "argument of type 'NoneType' is not iterable", [])
  | .obj d =>
      if missing_fields d ≠ [] then (.missingFields400 (missing_fields d), [])
      else
        match d.name with
        | some nm =>
            (.pdfAttachment200 (attachmentName nm) (generate_chicken_math_pdf d tmp today).2, [tmp])
        | none => (.serverError500 "KeyError: 'name'", [tmp])

/-- Handler of `POST /generate-pdf-base64`.  Also wrapped in
`try/except Exception`; note it calls the Composer directly with no
required-field validation.  A `None` body raises inside `data.get` before
any file is written; a missing `'name'` raises only after the temp file was
written (and deleted), while building the response filename. -/
def generate_pdf_base64_route (b : Body) (today tmp : String) : HttpResponse × List String :=
  match b with
  | .notJson =>
      (.serverError500 "415 Unsupported Media Type: request content type was not application/json", [])
  | .jsonNull =>
      (.serverError500 "'NoneType' object has no attribute 'get'", [])
  | .obj d =>
      match d.name with
      | some nm =>
          (.base64_200 (attachmentName nm) (generate_chicken_math_pdf d tmp today).2, [tmp])
      | none => (.serverError500 "KeyError: 'name'", [tmp])

/-- Whether a response is the 400 missing-fields rejection. -/
def is400 : HttpResponse → Bool
  | .missingFields400 _ => true
  | _ => false

/-- Whether a response is the catch-all 500 generation error. -/
def is500 : HttpResponse → Bool
  | .serverError500 _ => true
  | _ => false

/-- Whether a response is the base64 success payload. -/
def isB64Success : HttpResponse → Bool
  | .base64_200 _ _ => true
  | _ => false

/-- Sample valid body: the spec's §8 example record. -/
def sampleFull : ReportData :=
  ⟨some "Jane Doe", some 6, some 11, some 3146, some 1573, some 756, some 817,
   some "test", none, none⟩

/-- Sample body missing exactly `net_profit`. -/
def sampleMissingNet : ReportData :=
  ⟨some "Jane Doe", some 6, some 11, some 3146, some 1573, some 756, none,
   some "test", none, none⟩

/-- Sample body whose audited count is below the declared one. -/
def sampleNegGap : ReportData :=
  ⟨some "Jane Doe", some 11, some 6, some 3146, some 1573, some 756, some (-817),
   some "test", none, none⟩

theorem isDigitCh_digitChar (k : Nat) (h : k < 10) :
    isDigitCh (Nat.digitChar k) = true := by
  interval_cases k <;> decide

theorem digitsAux_digits (fuel : Nat) :
    ∀ (n : Nat), ∀ c ∈ digitsAux fuel n, isDigitCh c = true := by
  induction fuel with
  | zero => intro n c hc; simp [digitsAux] at hc
  | succ f ih =>
    intro n c hc
    rw [digitsAux] at hc
    split at hc
    · simp at hc
    · rcases List.mem_cons.mp hc with rfl | hc
      · exact isDigitCh_digitChar _ (Nat.mod_lt _ (by norm_num))
      · exact ih (n / 10) c hc

theorem natDigitsLSD_digits (n : Nat) : ∀ c ∈ natDigitsLSD n, isDigitCh c = true :=
  digitsAux_digits n n

theorem natDigits_digits (n : Nat) : ∀ c ∈ natDigits n, isDigitCh c = true := by
  intro c hc
  unfold natDigits at hc
  split at hc
  · simp at hc; subst hc; decide
  · exact natDigitsLSD_digits n c (List.mem_reverse.mp hc)

theorem natDigits_ne_nil (n : Nat) : natDigits n ≠ [] := by
  unfold natDigits
  split
  · simp
  · rename_i h
    match n, h with
    | m + 1, _ =>
      unfold natDigitsLSD
      rw [digitsAux]
      simp

theorem groupedRev_groupAux :
    ∀ (fuel : Nat) (l : List Char), l.length ≤ fuel + 3 → l ≠ [] →
      (∀ c ∈ l, isDigitCh c = true) → groupedRev (groupAux fuel l) = true := by
  intro fuel
  induction fuel with
  | zero =>
    intro l hl hne hd
    match l, hne, hl, hd with
    | [a], _, _, hd => simpa [groupAux] using hd a (by simp)
    | [a, b], _, _, hd =>
        simp only [groupAux, groupedRev, Bool.and_eq_true]
        exact ⟨hd a (by simp), hd b (by simp)⟩
    | [a, b, c], _, _, hd =>
        simp only [groupAux, groupedRev, Bool.and_eq_true]
        exact ⟨⟨hd a (by simp), hd b (by simp)⟩, hd c (by simp)⟩
  | succ f ih =>
    intro l hl hne hd
    rw [groupAux]
    split
    · rename_i h3
      match l, hne, h3, hd with
      | [a], _, _, hd => simpa using hd a (by simp)
      | [a, b], _, _, hd =>
          simp only [groupedRev, Bool.and_eq_true]
          exact ⟨hd a (by simp), hd b (by simp)⟩
      | [a, b, c], _, _, hd =>
          simp only [groupedRev, Bool.and_eq_true]
          exact ⟨⟨hd a (by simp), hd b (by simp)⟩, hd c (by simp)⟩
    · rename_i h3
      push_neg at h3
      match l, h3 with
      | a :: b :: c :: x :: rest, _ =>
        have hrec : groupedRev (groupAux f (x :: rest)) = true := by
          apply ih (x :: rest)
          · simp only [List.length_cons] at hl ⊢; omega
          · simp
          · intro e he
            exact hd e (by simp only [List.mem_cons] at he ⊢; tauto)
        simp only [List.take, List.drop, List.cons_append, List.nil_append, groupedRev,
          Bool.and_eq_true, beq_iff_eq]
        refine ⟨⟨⟨⟨hd a (by simp), hd b (by simp)⟩, hd c (by simp)⟩, trivial⟩, hrec⟩

theorem groupedRev_groupRevChars (l : List Char) (hne : l ≠ [])
    (hd : ∀ c ∈ l, isDigitCh c = true) : groupedRev (groupRevChars l) = true :=
  groupedRev_groupAux l.length l (by omega) hne hd

theorem commaGroupedB_pyCommaNat (n : Nat) : commaGroupedB (pyCommaNat n) = true := by
  show groupedRev ((groupRevChars (natDigits n).reverse).reverse).reverse = true
  rw [List.reverse_reverse]
  apply groupedRev_groupRevChars
  · simpa using natDigits_ne_nil n
  · intro c hc
    exact natDigits_digits n c (List.mem_reverse.mp hc)

theorem signedGroupedB_pyCommaNat (m : Nat) :
    signedGroupedB (pyCommaNat m).data = true := by
  unfold signedGroupedB
  have h := commaGroupedB_pyCommaNat m
  unfold commaGroupedB at h
  rw [h, Bool.true_or]

theorem signedGroupedB_neg_pyCommaNat (m : Nat) :
    signedGroupedB ("-" ++ pyCommaNat m).data = true := by
  have hdata : ("-" ++ pyCommaNat m).data = '-' :: (pyCommaNat m).data := rfl
  unfold signedGroupedB
  rw [hdata]
  have h := commaGroupedB_pyCommaNat m
  unfold commaGroupedB at h
  simp [h]

theorem data_append (s t : String) : (s ++ t).data = s.data ++ t.data := rfl

theorem currencyShapeB_currencyCell (q : ℚ) :
    currencyShapeB (currencyCell q) = true := by
  have hB : (roundHalfEven (100 * q)).natAbs % 100 < 100 := Nat.mod_lt _ (by norm_num)
  have hdata : (currencyCell q).data =
      '$' :: ((if roundHalfEven (100 * q) < 0 then "-" else "") ++
        pyCommaNat ((roundHalfEven (100 * q)).natAbs / 100)).data ++
        '.' :: [Nat.digitChar ((roundHalfEven (100 * q)).natAbs % 100 / 10),
                Nat.digitChar ((roundHalfEven (100 * q)).natAbs % 100 % 10)] := by
    show ("$" ++ pyMoney q).data = _
    unfold pyMoney pad2
    rw [data_append, data_append, data_append, data_append]
    simp
  unfold currencyShapeB
  rw [hdata]
  simp only [List.reverse_append, List.reverse_cons, List.reverse_nil, List.nil_append,
    List.cons_append, List.append_assoc]
  simp only [beq_self_eq_true, Bool.true_and, Bool.and_true, Bool.and_eq_true, beq_iff_eq]
  refine ⟨⟨isDigitCh_digitChar _ (by omega), isDigitCh_digitChar _ (Nat.mod_lt _ (by norm_num))⟩, ?_⟩
  rw [List.reverse_reverse]
  split
  · exact signedGroupedB_neg_pyCommaNat _
  · have h0 : (("" : String) ++ pyCommaNat ((roundHalfEven (100 * q)).natAbs / 100)).data =
        (pyCommaNat ((roundHalfEven (100 * q)).natAbs / 100)).data := by
      rw [data_append]; rfl
    rw [h0]
    exact signedGroupedB_pyCommaNat _

theorem eggsShapeB_eggsCell (i : Int) : eggsShapeB (eggsCell i) = true := by
  have hdata : (eggsCell i).data = (pyCommaInt i).data ++ [' ', 'e', 'g', 'g', 's'] := by
    show (pyCommaInt i ++ " eggs").data = _
    rw [data_append]
  unfold eggsShapeB
  rw [hdata]
  simp only [List.reverse_append, List.reverse_cons, List.reverse_nil, List.nil_append,
    List.cons_append]
  simp only [beq_self_eq_true, Bool.true_and, Bool.and_true]
  rw [List.reverse_reverse]
  unfold pyCommaInt
  by_cases hi : i < 0
  · rw [if_pos hi]
    exact signedGroupedB_neg_pyCommaNat _
  · rw [if_neg hi]
    exact signedGroupedB_pyCommaNat _

theorem econ_last_bg (d : ReportData) :
    bgColorAt (economic_table_style d) (0, -1) (-1, -1) =
      some (if d.net_profit.getD 0 ≥ 0 then "#2ecc71" else "#e74c3c") := rfl

/-- C1: for every Report Request, the discrepancy cell of the page-1
findings table renders exactly `real_flock - current_flock` (each taken as
0 when absent), with no guard or clamping; in particular a negative
difference is rendered negative, as the concrete audit below shows. -/
theorem discrepancy_cell_eq :
    (∀ d : ReportData,
      getCell (flock_data d) 3 1 =
        some (intRepr (d.real_flock.getD 0 - d.current_flock.getD 0))) ∧
    getCell (flock_data sampleNegGap) 3 1 = some "-5" := by
  constructor
  · intro d; rfl
  · decide

/-- C2: the fill color of the economics table's final row is `#2ecc71`
exactly when `net_profit >= 0` (0 when absent) and `#e74c3c` otherwise,
and it depends on no input other than `net_profit`. -/
theorem econ_final_row_fill :
    (∀ d : ReportData,
      bgColorAt (economic_table_style d) (0, -1) (-1, -1) =
        some (if d.net_profit.getD 0 ≥ 0 then "#2ecc71" else "#e74c3c")) ∧
    (∀ d d2 : ReportData, d.net_profit = d2.net_profit →
      bgColorAt (economic_table_style d) (0, -1) (-1, -1) =
        bgColorAt (economic_table_style d2) (0, -1) (-1, -1)) := by
  refine ⟨fun d => econ_last_bg d, fun d d2 h => ?_⟩
  rw [econ_last_bg, econ_last_bg, h]

/-- Witness for C2 at concrete inputs: two requests sharing `net_profit`
get the same fill, and the spec's example request gets the green fill. -/
theorem econ_final_row_fill_witness :
    bgColorAt (economic_table_style sampleFull) (0, -1) (-1, -1) =
      bgColorAt (economic_table_style (fillDefaults sampleFull)) (0, -1) (-1, -1) ∧
    bgColorAt (economic_table_style sampleFull) (0, -1) (-1, -1) = some "#2ecc71" := by
  constructor
  · exact econ_final_row_fill.2 sampleFull (fillDefaults sampleFull) rfl
  · exact (econ_final_row_fill.1 sampleFull).trans (by decide)

/-- C8: for every Report Request the Composer's flowable list holds exactly
one explicit page break, splitting the document into exactly two non-empty
pages, whatever the input data. -/
theorem two_pages (d : ReportData) (today : String) :
    ((buildElements d today).filter isPageBreak).length = 1 ∧
    (splitAtBreaks (buildElements d today)).length = 2 ∧
    (splitAtBreaks (buildElements d today)).all (fun g => !g.isEmpty) = true :=
  ⟨rfl, rfl, rfl⟩

/-- C9: on success `generate_chicken_math_pdf` returns exactly the output
location it was given. -/
theorem composer_returns_filename (d : ReportData) (out today : String) :
    (generate_chicken_math_pdf d out today).1 = out := rfl

/-- C3: a POST to `/generate-pdf` whose JSON object lacks required fields is
answered 400 with exactly the absent required field names, and the Composer
writes no file. -/
theorem missing_fields_400 (d : ReportData) (today tmp : String)
    (h : missing_fields d ≠ []) :
    generate_pdf_route (.obj d) today tmp =
      (.missingFields400 (missing_fields d), []) ∧
    ∀ f, f ∈ missing_fields d ↔ (f ∈ required_fields ∧ hasField d f = false) := by
  constructor
  · simp only [generate_pdf_route]
    rw [if_pos h]
  · intro f
    unfold missing_fields
    rw [List.mem_filter]
    simp [Bool.not_eq_true']

/-- Witness for C3: a request missing exactly `net_profit` is rejected with
the 400 listing `net_profit`, and no file is written. -/
theorem missing_fields_400_witness :
    missing_fields sampleMissingNet ≠ [] ∧
    missing_fields sampleMissingNet = ["net_profit"] ∧
    generate_pdf_route (Body.obj sampleMissingNet) "October 12, 2026" "/tmp/x.pdf" =
      (HttpResponse.missingFields400 (missing_fields sampleMissingNet), []) :=
  ⟨by decide, by decide,
   (missing_fields_400 sampleMissingNet "October 12, 2026" "/tmp/x.pdf" (by decide)).1⟩

/-- C4 counterexample: the claim that `/generate-pdf-base64` performs the
same required-field validation is false — a body missing `net_profit` is
not answered 400; the handler generates a PDF and returns the base64
success payload. -/
theorem base64_no_validation_cex :
    missing_fields sampleMissingNet = ["net_profit"] ∧
    is400 (generate_pdf_base64_route (Body.obj sampleMissingNet)
      "October 12, 2026" "/tmp/x.pdf").1 = false ∧
    isB64Success (generate_pdf_base64_route (Body.obj sampleMissingNet)
      "October 12, 2026" "/tmp/x.pdf").1 = true ∧
    (generate_pdf_base64_route (Body.obj sampleMissingNet)
      "October 12, 2026" "/tmp/x.pdf").2 = ["/tmp/x.pdf"] :=
  ⟨by decide, rfl, rfl, rfl⟩

/-- C4 amended: `/generate-pdf-base64` performs no required-field
validation at all — no body is ever answered with the 400 missing-fields
rejection, and any JSON object whose `name` key is present is rendered
(with defaults for the other absent keys) and returned as the base64
success payload, the temporary file having been written. -/
theorem base64_no_validation (b : Body) (today tmp : String) :
    is400 (generate_pdf_base64_route b today tmp).1 = false ∧
    (∀ d nm, b = Body.obj d → d.name = some nm →
      (generate_pdf_base64_route b today tmp).1 =
        .base64_200 (attachmentName nm) (buildElements d today) ∧
      (generate_pdf_base64_route b today tmp).2 = [tmp]) := by
  constructor
  · cases b with
    | notJson => rfl
    | jsonNull => rfl
    | obj d =>
        cases hn : d.name with
        | none => simp [generate_pdf_base64_route, hn, is400]
        | some nm => simp [generate_pdf_base64_route, hn, is400]
  · intro d nm hb hnm
    subst hb
    simp [generate_pdf_base64_route, hnm, generate_chicken_math_pdf]

/-- Witness for C4 amended, at a body missing `net_profit` but holding a
name: not a 400, but the base64 success payload. -/
theorem base64_no_validation_witness :
    is400 (generate_pdf_base64_route (Body.obj sampleMissingNet)
      "July 4, 2025" "/tmp/w.pdf").1 = false ∧
    (generate_pdf_base64_route (Body.obj sampleMissingNet) "July 4, 2025" "/tmp/w.pdf").1 =
      HttpResponse.base64_200 (attachmentName "Jane Doe")
        (buildElements sampleMissingNet "July 4, 2025") ∧
    (generate_pdf_base64_route (Body.obj sampleMissingNet) "July 4, 2025" "/tmp/w.pdf").2 =
      ["/tmp/w.pdf"] := by
  refine ⟨(base64_no_validation (Body.obj sampleMissingNet) "July 4, 2025" "/tmp/w.pdf").1, ?_, ?_⟩
  · exact ((base64_no_validation (Body.obj sampleMissingNet) "July 4, 2025" "/tmp/w.pdf").2
      sampleMissingNet "Jane Doe" rfl rfl).1
  · exact ((base64_no_validation (Body.obj sampleMissingNet) "July 4, 2025" "/tmp/w.pdf").2
      sampleMissingNet "Jane Doe" rfl rfl).2

/-- C5: in the economics table, the egg-count cell renders `yearly_eggs`
comma-grouped with no decimal point, and the three currency cells render
`egg_revenue`, `feed_cost` and `net_profit` as `'$'`, a comma-grouped
integer part, and exactly two decimal digits. -/
theorem economics_formatting (d : ReportData) :
    getCell (economic_data d) 1 1 = some (eggsCell (d.yearly_eggs.getD 0)) ∧
    getCell (economic_data d) 2 1 = some (currencyCell (d.egg_revenue.getD 0)) ∧
    getCell (economic_data d) 3 1 = some (currencyCell (d.feed_cost.getD 0)) ∧
    getCell (economic_data d) 4 1 = some (currencyCell (d.net_profit.getD 0)) ∧
    eggsShapeB (getCellD (economic_data d) 1 1) = true ∧
    currencyShapeB (getCellD (economic_data d) 2 1) = true ∧
    currencyShapeB (getCellD (economic_data d) 3 1) = true ∧
    currencyShapeB (getCellD (economic_data d) 4 1) = true :=
  ⟨rfl, rfl, rfl, rfl, eggsShapeB_eggsCell _, currencyShapeB_currencyCell _,
   currencyShapeB_currencyCell _, currencyShapeB_currencyCell _⟩

/-- C6: the Composer treats a mapping with absent keys exactly as the
mapping with the documented defaults filled in (0 for numerics,
`'Chicken Owner'`, `'No assessment provided.'`,
`'Premium Chicken Care Package'` for the texts), so a missing key never
changes or fails the build. -/
theorem composer_defaults (d : ReportData) (today : String) :
    buildElements (fillDefaults d) today = buildElements d today := by
  simp [buildElements, fillDefaults, flock_data, economic_data, economic_table_style, rec_text]

/-- C7: on a valid body, both routes suggest the download filename
`Chicken_Math_Report_` + the submitted name with every space turned into an
underscore + `.pdf`; the replaced name keeps every non-space character and
contains no space. -/
theorem download_filename (d : ReportData) (nm : String) (today tmp : String)
    (hnm : d.name = some nm) (hval : missing_fields d = []) :
    (generate_pdf_route (.obj d) today tmp).1 =
      .pdfAttachment200 ("Chicken_Math_Report_" ++ replaceSpaces nm ++ ".pdf")
        (buildElements d today) ∧
    (generate_pdf_base64_route (.obj d) today tmp).1 =
      .base64_200 ("Chicken_Math_Report_" ++ replaceSpaces nm ++ ".pdf")
        (buildElements d today) ∧
    (∀ c ∈ (replaceSpaces nm).data, c ≠ ' ') ∧
    (replaceSpaces nm).data = nm.data.map (fun c => if c = ' ' then '_' else c) := by
  refine ⟨?_, ?_, ?_, rfl⟩
  · simp [generate_pdf_route, hval, hnm, attachmentName, generate_chicken_math_pdf]
  · simp [generate_pdf_base64_route, hnm, attachmentName, generate_chicken_math_pdf]
  · intro c hc
    rcases List.mem_map.mp hc with ⟨a, _, rfl⟩
    by_cases ha : a = ' '
    · simp [ha]
    · simp [ha]

/-- Witness for C7 at the spec's example body: the filename is
`Chicken_Math_Report_Jane_Doe.pdf`. -/
theorem download_filename_witness :
    (generate_pdf_route (Body.obj sampleFull) "May 1, 2025" "/tmp/y.pdf").1 =
      HttpResponse.pdfAttachment200
        ("Chicken_Math_Report_" ++ replaceSpaces "Jane Doe" ++ ".pdf")
        (buildElements sampleFull "May 1, 2025") ∧
    "Chicken_Math_Report_" ++ replaceSpaces "Jane Doe" ++ ".pdf" =
      "Chicken_Math_Report_Jane_Doe.pdf" :=
  ⟨(download_filename sampleFull "Jane Doe" "May 1, 2025" "/tmp/y.pdf" rfl (by decide)).1,
   by decide⟩

/-- C10: on both generation routes, a body that does not parse to a JSON
object (not JSON at all, or the JSON value `null`) lands in the catch-all
handler: status 500 with the generic error shape, never the 400
missing-fields rejection, and no file is written. -/
theorem non_object_body_500 (today tmp : String) :
    (is500 (generate_pdf_route .notJson today tmp).1 = true ∧
      is400 (generate_pdf_route .notJson today tmp).1 = false ∧
      (generate_pdf_route .notJson today tmp).2 = []) ∧
    (is500 (generate_pdf_route .jsonNull today tmp).1 = true ∧
      is400 (generate_pdf_route .jsonNull today tmp).1 = false ∧
      (generate_pdf_route .jsonNull today tmp).2 = []) ∧
    (is500 (generate_pdf_base64_route .notJson today tmp).1 = true ∧
      is400 (generate_pdf_base64_route .notJson today tmp).1 = false ∧
      (generate_pdf_base64_route .notJson today tmp).2 = []) ∧
    (is500 (generate_pdf_base64_route .jsonNull today tmp).1 = true ∧
      is400 (generate_pdf_base64_route .jsonNull today tmp).1 = false ∧
      (generate_pdf_base64_route .jsonNull today tmp).2 = []) :=
  ⟨⟨rfl, rfl, rfl⟩, ⟨rfl, rfl, rfl⟩, ⟨rfl, rfl, rfl⟩, ⟨rfl, rfl, rfl⟩⟩

end ChickenMath
